import Mathlib

/-!
Verification of the BootBoots operational scripts: a shallow embedding, in
Lean, of the pure logic and of the control flow of the Python scripts under
`embedded/catcam/scripts`, `embedded/catcam/cpp/catcam/scripts` and
`infra/scripts`, together with theorems settling the specified properties.

External effects (subprocess invocations, S3 calls, git commands, file
writes, the Pillow decoder) are modelled by boolean outcome parameters and
by explicit event traces, so that control-flow properties (ordering of
calls, exit codes) become statements about pure functions.
-/

namespace BootBoots

/-! ## Version bumping (`FirmwareBuilder.bump_version`)

`bump_version` in both copies of `build_and_upload.py` parses the current
version string with `map(int, current.split('.'))` into exactly three
components, increments according to the bump type, and re-renders the
string as `f"{major}.{minor}.{patch}"`. Parsing or an unknown bump type
raises in Python; here it yields `none`. -/

/-- Python `str.split('.')`: cut the character sequence at every dot. -/
def splitOnDot : List Char → List (List Char)
  | [] => [[]]
  | c :: cs =>
    if c = '.' then [] :: splitOnDot cs
    else
      match splitOnDot cs with
      | [] => [[c]]
      | p :: ps => (c :: p) :: ps

/-- Python `int(...)` restricted to the digit strings that occur in version
components: a non-empty run of decimal digits (leading zeros allowed);
anything else raises `ValueError` (`none`). -/
def parseNatChars (cs : List Char) : Option Nat :=
  if cs.isEmpty then none
  else cs.foldl (fun acc c =>
    match acc with
    | none => none
    | some n => if c.isDigit then some (n * 10 + (c.toNat - 48)) else none)
    (some 0)

/-- Parsing: `current.split('.')` followed by `map(int, ...)` and unpacking into
exactly three components: succeeds only on `a.b.c` with numeric parts. -/
def parseVersion (s : String) : Option (Nat × Nat × Nat) :=
  match splitOnDot s.data with
  | [a, b, c] =>
    match parseNatChars a, parseNatChars b, parseNatChars c with
    | some ma, some mi, some pa => some (ma, mi, pa)
    | _, _, _ => none
  | _ => none

/-- Rendering `f"{major}.{minor}.{patch}"`. -/
def formatVersion (v : Nat × Nat × Nat) : String :=
  toString v.1 ++ "." ++ toString v.2.1 ++ "." ++ toString v.2.2

/-- The arithmetic core of `bump_version`: the `if/elif` ladder on the
`version_type` string; an unrecognised type raises `ValueError` (`none`). -/
def bumpTriple (versionType : String) (v : Nat × Nat × Nat) :
    Option (Nat × Nat × Nat) :=
  if versionType = "major" then some (v.1 + 1, 0, 0)
  else if versionType = "minor" then some (v.1, v.2.1 + 1, 0)
  else if versionType = "patch" then some (v.1, v.2.1, v.2.2 + 1)
  else none

/-- The method `FirmwareBuilder.bump_version`: parse the current version, bump the
requested component, render the new string. -/
def bump_version (versionType current : String) : Option String :=
  match parseVersion current with
  | none => none
  | some v =>
    match bumpTriple versionType v with
    | none => none
    | some v2 => some (formatVersion v2)

/-- Strict semantic-version order: major first, then minor, then patch. -/
def versionLt (a b : Nat × Nat × Nat) : Prop :=
  a.1 < b.1 ∨ (a.1 = b.1 ∧ (a.2.1 < b.2.1 ∨ (a.2.1 = b.2.1 ∧ a.2.2 < b.2.2)))

/-- C1: bumping any well-formed `major.minor.patch` version increments the
requested component (resetting the lower ones), and in particular bumping
"1.2.3" yields "1.2.4" / "1.3.0" / "2.0.0" for patch / minor / major. -/
theorem bump_version_correct (cur : String) (ma mi pa : Nat)
    (h : parseVersion cur = some (ma, mi, pa)) :
    bump_version "patch" cur = some (formatVersion (ma, mi, pa + 1)) ∧
    bump_version "minor" cur = some (formatVersion (ma, mi + 1, 0)) ∧
    bump_version "major" cur = some (formatVersion (ma + 1, 0, 0)) ∧
    bump_version "patch" "1.2.3" = some "1.2.4" ∧
    bump_version "minor" "1.2.3" = some "1.3.0" ∧
    bump_version "major" "1.2.3" = some "2.0.0" := by
  refine ⟨?_, ?_, ?_, by decide, by decide, by decide⟩ <;>
    simp [bump_version, h, bumpTriple]

/-- Witness for C1 at the concrete current version "1.2.3". -/
theorem bump_version_correct_witness :
    bump_version "patch" "1.2.3" = some (formatVersion (1, 2, 3 + 1)) :=
  (bump_version_correct "1.2.3" 1 2 3 (by decide)).1

/-- C7: for every parsed current version and every bump type among
`major`, `minor`, `patch`, the bumped version is strictly greater in
semantic-version order, so `bump_version` is monotonically increasing. -/
theorem bump_version_monotone (cur t : String) (v : Nat × Nat × Nat)
    (hp : parseVersion cur = some v)
    (ht : t = "major" ∨ t = "minor" ∨ t = "patch") :
    ∃ v2, bumpTriple t v = some v2 ∧ versionLt v v2 ∧
      bump_version t cur = some (formatVersion v2) := by
  obtain ⟨ma, mi, pa⟩ := v
  rcases ht with rfl | rfl | rfl <;>
    exact ⟨_, rfl, by simp [versionLt], by simp [bump_version, hp, bumpTriple]⟩

/-- Witness for C7: a patch bump of "1.2.3" strictly increases the version. -/
theorem bump_version_monotone_witness :
    ∃ v2, bumpTriple "patch" (1, 2, 3) = some v2 ∧ versionLt (1, 2, 3) v2 ∧
      bump_version "patch" "1.2.3" = some (formatVersion v2) :=
  bump_version_monotone "1.2.3" "patch" (1, 2, 3) (by decide) (by simp)

/-! ## Manifest merge (`FirmwareBuilder.create_version_manifest`,
`cpp/catcam/scripts/build_and_upload.py`)

The manifest is `{"project": ..., "versions": [...]}`; each entry holds a
version string, a timestamp and a firmware path. The merge filters out any
entry with the inserted version, appends the fresh entry, and sorts with
`key=lambda x: x["version"], reverse=True` (stable descending sort on the
version string). -/

/-- One entry of `manifest["versions"]`. -/
structure VersionInfo where
  version : String
  timestamp : String
  firmware_path : String
deriving DecidableEq, Repr

/-- Descending comparison on the `version` field, the Boolean order handed
to the sort (Python's `reverse=True` over the string key). -/
def versionDesc (a b : VersionInfo) : Bool :=
  decide (b.version ≤ a.version)

/-- The list surgery of `create_version_manifest`: drop entries equal to
the inserted version, append the new entry, sort descending by version
string. `timestamp` comes from `date -Iseconds`, the path is
`{project}/{version}/firmware.bin`. -/
def create_version_manifest (versions : List VersionInfo)
    (projectName version timestamp : String) : List VersionInfo :=
  let version_info : VersionInfo :=
    ⟨version, timestamp, projectName ++ "/" ++ version ++ "/firmware.bin"⟩
  let filtered := versions.filter (fun v => v.version != version)
  (filtered ++ [version_info]).mergeSort versionDesc

/-- C2: the merged versions list holds exactly one entry for the inserted
version, and is sorted in descending order by the version string. -/
theorem create_version_manifest_merge (versions : List VersionInfo)
    (projectName version timestamp : String) :
    (create_version_manifest versions projectName version timestamp).countP
        (fun v => v.version == version) = 1 ∧
    (create_version_manifest versions projectName version timestamp).Pairwise
        (fun a b => b.version ≤ a.version) := by
  constructor
  · rw [create_version_manifest]
    rw [List.Perm.countP_eq _ (List.mergeSort_perm _ _)]
    rw [List.countP_append]
    have h0 : (versions.filter (fun v => v.version != version)).countP
        (fun v => v.version == version) = 0 := by
      rw [List.countP_eq_zero]
      intro a ha
      have := (List.mem_filter.mp ha).2
      simpa using this
    simp [h0]
  · have h := @List.sorted_mergeSort VersionInfo versionDesc
      (fun a b c hab hbc => by
        simp only [versionDesc, decide_eq_true_eq] at hab hbc ⊢
        exact le_trans hbc hab)
      (fun a b => by
        simp only [versionDesc, Bool.or_eq_true, decide_eq_true_eq]
        exact le_total b.version a.version)
      ((versions.filter (fun v => v.version != version)) ++
        [⟨version, timestamp,
          projectName ++ "/" ++ version ++ "/firmware.bin"⟩])
    rw [create_version_manifest]
    exact (h.imp (fun hab => by
      simpa [versionDesc] using hab))

/-! ## JPEG validation (`infra/scripts/clean-corrupt-images.py`)

`is_valid_jpeg` checks length, the FF D8 start marker and the FF D9 end
marker before handing the bytes to Pillow for a full decode. The decode is
an external effect: it is modelled by the oracle `pillowOk`, and the result
records whether the decode step was reached. -/

/-- Result of `is_valid_jpeg`: the returned Boolean, plus whether control
reached the Pillow `Image.open` / `img.load()` step. -/
structure JpegCheck where
  result : Bool
  decodeAttempted : Bool
deriving DecidableEq, Repr

/-- The validator `is_valid_jpeg(data)`, with bytes as `List Nat` and the Pillow decode
outcome supplied by the `pillowOk` oracle (an `Exception` there means
`false`). -/
def is_valid_jpeg (data : List Nat) (pillowOk : Bool) : JpegCheck :=
  if data.length < 4 then ⟨false, false⟩
  else if data.take 2 != [0xFF, 0xD8] then ⟨false, false⟩
  else if data.drop (data.length - 2) != [0xFF, 0xD9] then ⟨false, false⟩
  else ⟨pillowOk, true⟩

/-- Shared computation: without the FF D8 start marker, `is_valid_jpeg`
returns `False` before the decode step. -/
theorem is_valid_jpeg_bad_magic (data : List Nat) (pillowOk : Bool)
    (h : data.take 2 ≠ [0xFF, 0xD8]) :
    is_valid_jpeg data pillowOk = ⟨false, false⟩ := by
  rw [is_valid_jpeg]
  by_cases hlen : data.length < 4
  · simp [hlen]
  · simp [hlen, h]

/-- C3: bytes that do not start with the JPEG start marker FF D8 are
rejected, and the Pillow decode step is never reached. -/
theorem is_valid_jpeg_early_reject (data : List Nat) (pillowOk : Bool)
    (h : data.take 2 ≠ [0xFF, 0xD8]) :
    is_valid_jpeg data pillowOk = ⟨false, false⟩ :=
  is_valid_jpeg_bad_magic data pillowOk h

/-- Witness for C3: a PNG header (89 50 4E 47 0D 0A 1A 0A) is rejected
without a decode attempt. -/
theorem is_valid_jpeg_early_reject_witness :
    is_valid_jpeg [0x89, 0x50, 0x4E, 0x47, 0x0D, 0x0A, 0x1A, 0x0A] true =
      ⟨false, false⟩ :=
  is_valid_jpeg_early_reject _ true (by decide)

/-! ## Release flow control (`main` of both `build_and_upload.py` copies)

The two `main` functions are modelled as pure functions from the CLI
arguments and the outcomes of the external steps (build tool, S3 upload,
git commands) to the trace of external calls made and the process exit
code. Falling off the end of `main` in Python is exit code 0; `sys.exit(1)`
is 1. `ensure_aws_profile` and the `platformio.ini` search precede
everything and are not part of the claims, so a run is modelled from the
point where both have succeeded. -/

/-- The externally visible calls of a release-flow run, one event per
helper invoked: version bump (writes `version.h`), git commit+push of the
bump, the PlatformIO build, the S3 firmware upload, the manifest update,
and git tag creation+push. -/
inductive ReleaseEvent
  | bumpVersion
  | commitBump
  | build
  | uploadS3
  | updateManifest
  | createTag
deriving DecidableEq, Repr

/-- CLI flags of `cpp/catcam/scripts/build_and_upload.py` relevant to
control flow (`--no-bump`, `--build-only`). -/
structure CppArgs where
  noBump : Bool
  buildOnly : Bool
deriving DecidableEq, Repr

/-- Outcomes of the external steps of the cpp-variant flow: `buildOk` is
the return value of `build_firmware` (clean + build), `uploadOk` of
`upload_to_s3`, `manifestOk` of `create_version_manifest`. -/
structure CppOutcomes where
  buildOk : Bool
  uploadOk : Bool
  manifestOk : Bool
deriving DecidableEq, Repr

/-- The entry point `main` of `cpp/catcam/scripts/build_and_upload.py`: bump unless
`--no-bump`, build (exit 1 on failure), then unless `--build-only` upload
(exit 1 on failure) and update the manifest. The return value of
`create_version_manifest` is ignored by `main`, so `manifestOk` does not
influence the exit code. -/
def cppMain (args : CppArgs) (o : CppOutcomes) : List ReleaseEvent × Nat :=
  let ev0 : List ReleaseEvent :=
    if args.noBump then [] else [.bumpVersion]
  let ev1 := ev0 ++ [.build]
  if !o.buildOk then (ev1, 1)
  else if args.buildOnly then (ev1, 0)
  else
    let ev2 := ev1 ++ [.uploadS3]
    if o.uploadOk then (ev2 ++ [.updateManifest], 0)
    else (ev2, 1)

/-- Result of `check_uncommitted_changes`: a clean tree (returns `True`),
a dirty tree the operator chose to continue with (returns `False`), or a
dirty tree the operator aborted on (`sys.exit(0)`). -/
inductive TreeCheck
  | clean
  | dirtyContinue
  | dirtyAbort
deriving DecidableEq, Repr

/-- CLI flags of `embedded/catcam/scripts/build_and_upload.py` relevant to
control flow. -/
structure NkArgs where
  noBump : Bool
  buildOnly : Bool
deriving DecidableEq, Repr

/-- Outcomes of the external steps of the main-variant flow. `commitOk`
and `tagOk` are the return values of `commit_version_bump` and
`create_version_tag`; both are ignored by `main` (their failures are only
printed). -/
structure NkOutcomes where
  treeCheck : TreeCheck
  buildOk : Bool
  uploadOk : Bool
  commitOk : Bool
  tagOk : Bool
deriving DecidableEq, Repr

/-- The entry point `main` of `embedded/catcam/scripts/build_and_upload.py`: check the
tree, bump unless `--no-bump` (committing and pushing the bump right away
when the tree was clean), build (exit 1 on failure), then unless
`--build-only` upload (exit 1 on failure) and create and push the
`device/{version}` tag after a successful upload. -/
def nkMain (args : NkArgs) (o : NkOutcomes) : List ReleaseEvent × Nat :=
  if o.treeCheck = .dirtyAbort then ([], 0)
  else
    let ev0 : List ReleaseEvent :=
      if args.noBump then []
      else
        .bumpVersion ::
          (if o.treeCheck = .clean then [.commitBump] else [])
    let ev1 := ev0 ++ [.build]
    if !o.buildOk then (ev1, 1)
    else if args.buildOnly then (ev1, 0)
    else
      let ev2 := ev1 ++ [.uploadS3]
      if o.uploadOk then (ev2 ++ [.createTag], 0)
      else (ev2, 1)

/-- C5: in both release flows, a failed build (the external tool returning
non-zero makes `build_firmware` return `False`) means no S3 upload call is
ever made. -/
theorem build_failure_no_upload (ca : CppArgs) (co : CppOutcomes)
    (na : NkArgs) (no : NkOutcomes)
    (hc : co.buildOk = false) (hn : no.buildOk = false) :
    ReleaseEvent.uploadS3 ∉ (cppMain ca co).1 ∧
    ReleaseEvent.uploadS3 ∉ (nkMain na no).1 := by
  constructor
  · cases h : ca.noBump <;> simp [cppMain, hc, h]
  · rcases ht : no.treeCheck with _ | _ | _
    all_goals cases h : na.noBump <;>
      simp [nkMain, hn, h, ht]

/-- Witness for C5: with every flag off and a failed build, neither flow
uploads. -/
theorem build_failure_no_upload_witness :
    ReleaseEvent.uploadS3 ∉
      (cppMain ⟨false, false⟩ ⟨false, true, true⟩).1 ∧
    ReleaseEvent.uploadS3 ∉
      (nkMain ⟨false, false⟩ ⟨.clean, false, true, true, true⟩).1 :=
  build_failure_no_upload ⟨false, false⟩ ⟨false, true, true⟩
    ⟨false, false⟩ ⟨.clean, false, true, true, true⟩ rfl rfl

/-- C8: on a clean tree with a version bump, the flow commits the bump and
— after a successful upload — creates and pushes the version tag, and the
process exits 0 whatever `create_version_tag` returned (tag failure is
only logged). In the source the commit happens right after the bump,
before the build; the tag creation strictly follows the upload. -/
theorem release_commit_and_tag (args : NkArgs) (o : NkOutcomes)
    (hclean : o.treeCheck = .clean) (hbump : args.noBump = false)
    (honly : args.buildOnly = false) (hbuild : o.buildOk = true)
    (hupload : o.uploadOk = true) :
    nkMain args o =
      ([.bumpVersion, .commitBump, .build, .uploadS3, .createTag], 0) ∧
    ReleaseEvent.commitBump ∈ (nkMain args o).1 ∧
    (∃ i j, i < j ∧ (nkMain args o).1.get? i = some .uploadS3 ∧
      (nkMain args o).1.get? j = some .createTag) ∧
    (nkMain args o).2 = 0 := by
  have htr : nkMain args o =
      ([.bumpVersion, .commitBump, .build, .uploadS3, .createTag], 0) := by
    simp [nkMain, hclean, hbump, honly, hbuild, hupload]
  refine ⟨htr, ?_, ?_, ?_⟩
  · rw [htr]; decide
  · rw [htr]; exact ⟨3, 4, by decide, rfl, rfl⟩
  · rw [htr]

/-- Witness for C8 at a run whose tag creation fails (`tagOk = false`):
the flow still commits, tags after the upload, and exits 0. -/
theorem release_commit_and_tag_witness :
    nkMain ⟨false, false⟩ ⟨.clean, true, true, true, false⟩ =
      ([.bumpVersion, .commitBump, .build, .uploadS3, .createTag], 0) :=
  (release_commit_and_tag ⟨false, false⟩ ⟨.clean, true, true, true, false⟩
    rfl rfl rfl rfl rfl).1

/-! ## Device command publisher (`embedded/catcam/scripts/bbdevice.py`)

`send_command` builds `{"command": command}`, merges in the optional
parameter dict, publishes the JSON to the fixed command topic and always
returns `{"status": "sent"}` (or `None` when the publish raised a
`ClientError`). Parameter values are modelled as strings; the MQTT publish
outcome is the `publishOk` oracle. The `timeout` parameter is a Python
float, modelled as a rational — the claim is precisely that it is never
inspected. -/

/-- The command topic `catcam/BootBootsThing/commands`. -/
def COMMAND_TOPIC : String := "catcam/BootBootsThing/commands"

/-- The default `DEFAULT_TIMEOUT = 5.0` seconds. -/
def DEFAULT_TIMEOUT : Rat := 5

/-- Python `dict.update`: existing keys keep their position and take the
new value, fresh keys are appended in order. -/
def dictUpdate (base upd : List (String × String)) :
    List (String × String) :=
  base.map (fun kv =>
    match upd.find? (fun u => u.1 == kv.1) with
    | some u => (kv.1, u.2)
    | none => kv) ++
  upd.filter (fun u => !(base.any (fun kv => kv.1 == u.1)))

/-- What a `send_command` call did: the payload handed to
`iot_data_client.publish` on the command topic, and the returned value
(`none` models Python `None` after a `ClientError`). -/
structure SendOutcome where
  topic : String
  publishedPayload : List (String × String)
  result : Option (List (String × String))
deriving DecidableEq, Repr

/-- The method `DeviceCommander.send_command`: build the payload, publish it, report
`{"status": "sent"}` — for `reboot` immediately, for every other command
after printing a note; a `ClientError` from the publish yields `None`.
`timeout` is accepted and never read. -/
def send_command (command : String)
    (params : Option (List (String × String))) (timeout : Rat)
    (publishOk : Bool) : SendOutcome :=
  let payload := dictUpdate [("command", command)] (params.getD [])
  if !publishOk then ⟨COMMAND_TOPIC, payload, none⟩
  else if command == "reboot" then
    ⟨COMMAND_TOPIC, payload, some [("status", "sent")]⟩
  else ⟨COMMAND_TOPIC, payload, some [("status", "sent")]⟩

/-- C9: `send_command` is independent of the timeout parameter — for any
two timeout values the published payload, the topic and the returned
result coincide. -/
theorem send_command_timeout_independent (command : String)
    (params : Option (List (String × String))) (publishOk : Bool)
    (t1 t2 : Rat) :
    send_command command params t1 publishOk =
      send_command command params t2 publishOk := rfl

/-- The entry point `main` of `bbdevice.py`: `set_setting` with fewer than two arguments
exits 1 before any publish; otherwise the command is sent and a `None`
result (failed publish) exits 1, any other result exits 0. The
`json.loads` coercion of the setting value only reshapes the value and is
kept as the raw string here. -/
def bbdeviceMain (command : String) (cmdArgs : List String)
    (timeout : Rat) (publishOk : Bool) : Nat :=
  if command == "set_setting" && cmdArgs.length < 2 then 1
  else
    let params : Option (List (String × String)) :=
      if command == "set_setting" then
        some [("setting", cmdArgs.getD 0 ""), ("value", cmdArgs.getD 1 "")]
      else none
    match (send_command command params timeout publishOk).result with
    | some _ => 0
    | none => 1

/-! ## Secrets materializer (`cpp/catcam/scripts/generate_secrets.py`)

`main` exits 1 if the `platformio.ini` anchor is missing, if boto3 raises
`NoCredentialsError`, if any of the six fetches (four SSM parameters, two
IoT endpoints) raises, or if the root CA file is absent; only after all of
them succeed is `include/secrets.h` opened for writing. The model returns
the exit code together with whether the output file was (re)written. -/

/-- Outcomes of the external steps of `generate_secrets.py`'s `main`, in
program order: project root found, credentials valid, the four parameter
fetches, the two endpoint lookups, the root CA file read. -/
structure SecretsOutcomes where
  projectRootOk : Bool
  credsOk : Bool
  wifiSsidOk : Bool
  wifiPasswordOk : Bool
  certPemOk : Bool
  privKeyOk : Bool
  iotEndpointOk : Bool
  iotCredEndpointOk : Bool
  rootCaOk : Bool
deriving DecidableEq, Repr

/-- The entry point `main` of `generate_secrets.py` as (exit code, was `secrets.h`
written). The fetches run inside one `try`: the first failure aborts with
exit 1; the single write of `secrets.h` is the last step. -/
def generate_secrets_main (o : SecretsOutcomes) : Nat × Bool :=
  if !o.projectRootOk then (1, false)
  else if !o.credsOk then (1, false)
  else if !o.wifiSsidOk then (1, false)
  else if !o.wifiPasswordOk then (1, false)
  else if !o.certPemOk then (1, false)
  else if !o.privKeyOk then (1, false)
  else if !o.iotEndpointOk then (1, false)
  else if !o.iotCredEndpointOk then (1, false)
  else if !o.rootCaOk then (1, false)
  else (0, true)

/-- C6: when credentials are absent or any parameter/endpoint fetch fails,
the secrets generator exits non-zero and never writes `secrets.h`, so the
previous `include/secrets.h` is untouched on every such failure path. -/
theorem generate_secrets_fail_no_write (o : SecretsOutcomes)
    (h : o.credsOk = false ∨ o.wifiSsidOk = false ∨
      o.wifiPasswordOk = false ∨ o.certPemOk = false ∨
      o.privKeyOk = false ∨ o.iotEndpointOk = false ∨
      o.iotCredEndpointOk = false) :
    (generate_secrets_main o).1 ≠ 0 ∧ (generate_secrets_main o).2 = false := by
  rw [generate_secrets_main]
  rcases h with h | h | h | h | h | h | h <;>
    cases hr : o.projectRootOk <;>
    cases h1 : o.credsOk <;> cases h2 : o.wifiSsidOk <;>
    cases h3 : o.wifiPasswordOk <;> cases h4 : o.certPemOk <;>
    cases h5 : o.privKeyOk <;> cases h6 : o.iotEndpointOk <;>
    cases h7 : o.iotCredEndpointOk <;>
    simp_all

/-- Witness for C6: a run where only the private-key fetch fails exits 1
and does not write the file. -/
theorem generate_secrets_fail_no_write_witness :
    (generate_secrets_main
      ⟨true, true, true, true, true, false, true, true, true⟩).1 ≠ 0 ∧
    (generate_secrets_main
      ⟨true, true, true, true, true, false, true, true, true⟩).2 = false :=
  generate_secrets_fail_no_write
    ⟨true, true, true, true, true, false, true, true, true⟩
    (Or.inr (Or.inr (Or.inr (Or.inr (Or.inl rfl)))))

/-! ## Exit codes of the CLI entry points (C4)

The claim that every detected failure exits 1 is false for the cpp-variant
release flow: `main` calls `builder.create_version_manifest(version)` and
discards its return value, so a failed manifest update after a successful
upload still exits 0. -/

/-- C4 counterexample: a cpp-variant run whose build and upload succeed
but whose manifest update fails (`manifestOk = false`) reaches the
manifest step and still exits 0, not 1 as the claim requires. -/
theorem cpp_manifest_failure_exit_zero :
    (cppMain ⟨false, false⟩ ⟨true, true, false⟩).2 = 0 ∧
    (cppMain ⟨false, false⟩ ⟨true, true, false⟩).2 ≠ 1 ∧
    ReleaseEvent.updateManifest ∈ (cppMain ⟨false, false⟩ ⟨true, true, false⟩).1 ∧
    (⟨true, true, false⟩ : CppOutcomes).manifestOk = false := by
  refine ⟨rfl, by decide, by decide, rfl⟩

/-- C4 as amended: build failure exits 1 and success exits 0 in both
release flows; an upload failure exits 1; a failed publish in the command
publisher exits 1 and a successful one exits 0 — but a manifest-update
failure after a successful upload is only logged and the cpp flow still
exits 0. -/
theorem cli_exit_codes (ca : CppArgs) (co : CppOutcomes)
    (na : NkArgs) (no : NkOutcomes) (command : String)
    (cmdArgs : List String) (timeout : Rat)
    (hna : no.treeCheck ≠ .dirtyAbort)
    (hcmd : ¬(command = "set_setting" ∧ cmdArgs.length < 2)) :
    (co.buildOk = false → (cppMain ca co).2 = 1) ∧
    (co.buildOk = true → ca.buildOnly = false → co.uploadOk = false →
      (cppMain ca co).2 = 1) ∧
    (co.buildOk = true → ca.buildOnly = false → co.uploadOk = true →
      (cppMain ca co).2 = 0) ∧
    (co.buildOk = true → ca.buildOnly = true → (cppMain ca co).2 = 0) ∧
    (no.buildOk = false → (nkMain na no).2 = 1) ∧
    (no.buildOk = true → na.buildOnly = false → no.uploadOk = false →
      (nkMain na no).2 = 1) ∧
    (no.buildOk = true → na.buildOnly = false → no.uploadOk = true →
      (nkMain na no).2 = 0) ∧
    (no.buildOk = true → na.buildOnly = true → (nkMain na no).2 = 0) ∧
    (bbdeviceMain command cmdArgs timeout false = 1) ∧
    (bbdeviceMain command cmdArgs timeout true = 0) := by
  have hbb : ∀ pOk : Bool,
      bbdeviceMain command cmdArgs timeout pOk =
        (if pOk then 0 else 1) := by
    intro pOk
    rw [bbdeviceMain]
    have : (command == "set_setting" && decide (cmdArgs.length < 2)) =
        false := by
      by_cases hc : command = "set_setting"
      · have hlen : ¬ cmdArgs.length < 2 := fun hl => hcmd ⟨hc, hl⟩
        simp [hc, hlen]
      · simp [hc]
    rw [this]
    cases pOk <;> simp [send_command]
  have hnk : ∀ P : Prop, (o2 : NkOutcomes) → o2.treeCheck ≠ .dirtyAbort →
      (o2.treeCheck = .clean → P) → (o2.treeCheck = .dirtyContinue → P) → P := by
    intro P o2 habort hc hd
    rcases ht : o2.treeCheck with _ | _ | _
    · exact hc ht
    · exact hd ht
    · exact absurd ht habort
  refine ⟨?_, ?_, ?_, ?_, ?_, ?_, ?_, ?_, by simp [hbb], by simp [hbb]⟩
  · intro h1; simp [cppMain, h1]
  · intro h1 h2 h3; simp [cppMain, h1, h2, h3]
  · intro h1 h2 h3; simp [cppMain, h1, h2, h3]
  · intro h1 h2; simp [cppMain, h1, h2]
  · intro h1
    exact hnk _ no hna (fun ht => by simp [nkMain, ht, h1])
      (fun ht => by simp [nkMain, ht, h1])
  · intro h1 h2 h3
    exact hnk _ no hna (fun ht => by simp [nkMain, ht, h1, h2, h3])
      (fun ht => by simp [nkMain, ht, h1, h2, h3])
  · intro h1 h2 h3
    exact hnk _ no hna (fun ht => by simp [nkMain, ht, h1, h2, h3])
      (fun ht => by simp [nkMain, ht, h1, h2, h3])
  · intro h1 h2
    exact hnk _ no hna (fun ht => by simp [nkMain, ht, h1, h2])
      (fun ht => by simp [nkMain, ht, h1, h2])

/-- Witness for the amended C4 at concrete runs: failed build exits 1,
full success exits 0, failed publish exits 1. -/
theorem cli_exit_codes_witness :
    (cppMain ⟨false, false⟩ ⟨false, true, true⟩).2 = 1 ∧
    (nkMain ⟨false, false⟩ ⟨.clean, true, true, true, true⟩).2 = 0 ∧
    bbdeviceMain "ping" [] DEFAULT_TIMEOUT false = 1 := by
  have h := cli_exit_codes ⟨false, false⟩ ⟨false, true, true⟩
    ⟨false, false⟩ ⟨.clean, true, true, true, true⟩ "ping" [] DEFAULT_TIMEOUT
    (by decide) (by simp)
  exact ⟨h.1 rfl, (h.2.2.2.2.2.2.1) rfl rfl rfl, h.2.2.2.2.2.2.2.2.1⟩

/-! ## Corrupt-image scrubber (`main` of `clean-corrupt-images.py`)

The scan loops over every listed object; keys whose lowercased name does
not end in `.jpg`, `.jpeg` or `.png` are skipped with `continue`, the rest
are fetched and validated with `is_valid_jpeg`; invalid ones are counted
as corrupt and, unless `--dry-run`, deleted. The Python counters `corrupt`
and `deleted` are kept here as the lists of affected keys, so membership
statements can name them. -/

/-- One listed S3 object: its key and the bytes of its body. -/
structure S3Object where
  key : String
  data : List Nat
deriving DecidableEq, Repr

/-- The filter `key.lower().endswith((".jpg", ".jpeg", ".png"))`. -/
def hasImageExt (key : String) : Bool :=
  let k := key.data.map Char.toLower
  List.isSuffixOf ".jpg".data k || List.isSuffixOf ".jpeg".data k ||
    List.isSuffixOf ".png".data k

/-- State of the scan loop: objects validated so far, keys classified
corrupt, keys actually deleted. -/
structure ScrubResult where
  total : Nat
  corrupt : List String
  deleted : List String
deriving DecidableEq, Repr

/-- The body of the scan loop for one object: skip non-image keys, count
the rest, and record (and, unless dry-run, delete) the invalid ones. The
Pillow decode outcome is the `pillowOk` oracle on the object's bytes. -/
def scrubStep (dryRun : Bool) (pillowOk : List Nat → Bool)
    (acc : ScrubResult) (obj : S3Object) : ScrubResult :=
  if !hasImageExt obj.key then acc
  else if (is_valid_jpeg obj.data (pillowOk obj.data)).result then
    ⟨acc.total + 1, acc.corrupt, acc.deleted⟩
  else if dryRun then
    ⟨acc.total + 1, acc.corrupt ++ [obj.key], acc.deleted⟩
  else
    ⟨acc.total + 1, acc.corrupt ++ [obj.key], acc.deleted ++ [obj.key]⟩

/-- The full scan of `main`: fold the loop body over the listed objects,
starting from zeroed counters. -/
def scrubObjects (dryRun : Bool) (pillowOk : List Nat → Bool)
    (objs : List S3Object) : ScrubResult :=
  objs.foldl (scrubStep dryRun pillowOk) ⟨0, [], []⟩

/-- A key recorded as corrupt stays recorded for the rest of the scan. -/
theorem foldl_scrubStep_corrupt_mono (dryRun : Bool)
    (pillowOk : List Nat → Bool) (objs : List S3Object) (acc : ScrubResult)
    (k : String) (h : k ∈ acc.corrupt) :
    k ∈ (objs.foldl (scrubStep dryRun pillowOk) acc).corrupt := by
  induction objs generalizing acc with
  | nil => exact h
  | cons o rest ih =>
    refine ih (scrubStep dryRun pillowOk acc o) ?_
    rw [scrubStep]
    rcases hext : hasImageExt o.key with _ | _
    · simpa [hext] using h
    · rcases hres : (is_valid_jpeg o.data (pillowOk o.data)).result with _ | _
      · rcases hdry : dryRun with _ | _ <;>
          simp [hext, hres, hdry, List.mem_append, h]
      · simp [hext, hres, h]

/-- A key recorded as deleted stays recorded for the rest of the scan. -/
theorem foldl_scrubStep_deleted_mono (dryRun : Bool)
    (pillowOk : List Nat → Bool) (objs : List S3Object) (acc : ScrubResult)
    (k : String) (h : k ∈ acc.deleted) :
    k ∈ (objs.foldl (scrubStep dryRun pillowOk) acc).deleted := by
  induction objs generalizing acc with
  | nil => exact h
  | cons o rest ih =>
    refine ih (scrubStep dryRun pillowOk acc o) ?_
    rw [scrubStep]
    rcases hext : hasImageExt o.key with _ | _
    · simpa [hext] using h
    · rcases hres : (is_valid_jpeg o.data (pillowOk o.data)).result with _ | _
      · rcases hdry : dryRun with _ | _ <;>
          simp [hext, hres, hdry, List.mem_append, h]
      · simp [hext, hres, h]

/-- The scan loop, from any accumulator, classifies as corrupt every
listed object with an image extension whose bytes lack the FF D8 start
marker, and deletes it when dry-run is off. -/
theorem foldl_scrubStep_mem (dryRun : Bool) (pillowOk : List Nat → Bool)
    (objs : List S3Object) (acc : ScrubResult) (obj : S3Object)
    (hmem : obj ∈ objs) (hext : hasImageExt obj.key = true)
    (hmagic : obj.data.take 2 ≠ [0xFF, 0xD8]) :
    obj.key ∈ (objs.foldl (scrubStep dryRun pillowOk) acc).corrupt ∧
    (dryRun = false →
      obj.key ∈ (objs.foldl (scrubStep dryRun pillowOk) acc).deleted) := by
  induction objs generalizing acc with
  | nil => exact absurd hmem (List.not_mem_nil obj)
  | cons o rest ih =>
    rcases List.mem_cons.mp hmem with heq | hrest
    · subst heq
      have hres : (is_valid_jpeg obj.data (pillowOk obj.data)).result =
          false := by
        rw [is_valid_jpeg_bad_magic obj.data (pillowOk obj.data) hmagic]
      have hcor : obj.key ∈ (scrubStep dryRun pillowOk acc obj).corrupt := by
        rw [scrubStep]
        rcases hdry : dryRun with _ | _ <;>
          simp [hext, hres, hdry, List.mem_append]
      constructor
      · exact foldl_scrubStep_corrupt_mono dryRun pillowOk rest _ _ hcor
      · intro hdry
        have hdel : obj.key ∈ (scrubStep dryRun pillowOk acc obj).deleted := by
          rw [scrubStep]
          simp [hext, hres, hdry, List.mem_append]
        exact foldl_scrubStep_deleted_mono dryRun pillowOk rest _ _ hdel
    · exact ih _ hrest

/-- C10 counterexample: the listed object `catcam-training/notes.txt`,
whose bytes 00 01 02 03 do not start with FF D8, is enumerated by the scan
with dry-run off, yet is never validated, never classified corrupt and
never deleted — the extension filter skips it — refuting the claim for
"every enumerated object". -/
theorem scrub_skips_non_image_counterexample :
    (([0, 1, 2, 3] : List Nat).take 2 ≠ [0xFF, 0xD8]) ∧
    scrubObjects false (fun _ => false)
      [⟨"catcam-training/notes.txt", [0, 1, 2, 3]⟩] = ⟨0, [], []⟩ := by
  constructor
  · decide
  · rfl

/-- C10 as amended: every listed object whose lowercased key ends in
`.jpg`, `.jpeg` or `.png` is validated with the JPEG validator, so every
such object whose content does not begin with FF D8 — in particular every
well-formed PNG — is classified corrupt and is deleted when dry-run is
off. -/
theorem scrub_deletes_bad_magic_images (dryRun : Bool)
    (pillowOk : List Nat → Bool) (objs : List S3Object) (obj : S3Object)
    (hmem : obj ∈ objs) (hext : hasImageExt obj.key = true)
    (hmagic : obj.data.take 2 ≠ [0xFF, 0xD8]) :
    obj.key ∈ (scrubObjects dryRun pillowOk objs).corrupt ∧
    (dryRun = false →
      obj.key ∈ (scrubObjects dryRun pillowOk objs).deleted) :=
  foldl_scrubStep_mem dryRun pillowOk objs ⟨0, [], []⟩ obj hmem hext hmagic

/-- Witness for the amended C10: a well-formed PNG (header 89 50 4E 47 0D
0A 1A 0A) under a `.png` key is classified corrupt and deleted when
dry-run is off. -/
theorem scrub_deletes_bad_magic_images_witness :
    "catcam-training/cat.png" ∈
      (scrubObjects false (fun _ => false)
        [⟨"catcam-training/cat.png",
          [0x89, 0x50, 0x4E, 0x47, 0x0D, 0x0A, 0x1A, 0x0A]⟩]).corrupt ∧
    "catcam-training/cat.png" ∈
      (scrubObjects false (fun _ => false)
        [⟨"catcam-training/cat.png",
          [0x89, 0x50, 0x4E, 0x47, 0x0D, 0x0A, 0x1A, 0x0A]⟩]).deleted := by
  have h := scrub_deletes_bad_magic_images false (fun _ => false)
    [⟨"catcam-training/cat.png", [0x89, 0x50, 0x4E, 0x47, 0x0D, 0x0A, 0x1A, 0x0A]⟩]
    ⟨"catcam-training/cat.png", [0x89, 0x50, 0x4E, 0x47, 0x0D, 0x0A, 0x1A, 0x0A]⟩
    (List.mem_singleton.mpr rfl) (by decide) (by decide)
  exact ⟨h.1, h.2 rfl⟩

end BootBoots
